import Mathlib

set_option linter.unusedVariables false

/-!
Verification of the Station-Remember ingestion and spam-filtering pipeline.

The development shallowly embeds the two core modules:

* `edit.py` — the heuristic spam classifier `is_spam_page` and the two
  filtered-rebuild entry points `filter_spam_documents` and
  `filter_spam_documents_with_user_input`.
* `screiping.py` — sitemap loading (`load_sitemap`), the diff step
  (`urls_to_update`), the merge/filter/chunk/persist flow of the
  `__main__` block (`run_sync`), and the persist step as a sequence of
  file-write events so that interrupted runs can be examined.

Python strings are modelled as `List Char`; Python dicts as association
lists updated by `dinsert` (replace-in-place, append when the key is
new, exactly the observable content-and-order behaviour of a dict).
Float arithmetic in the source (`0.3` thresholds, percentage rates) is
modelled exactly over `ℚ`; the two threshold comparisons are expressed
by the equivalent integer inequalities (scaled by 10) so that every
definition stays kernel-computable, and `japaneseRatioQ_lt_iff` proves
the integral form equal to the rational-ratio comparison the source
writes.
-/

/-! ### Character classes used by the classifier's regular expressions -/

/-- The regex character class `[あ-ん]` of `edit.py` line 54. -/
def isHiragana (c : Char) : Bool := 'あ' ≤ c && c ≤ 'ん'

/-- The regex character class `[ア-ン]` of `edit.py` line 55. -/
def isKatakana (c : Char) : Bool := 'ア' ≤ c && c ≤ 'ン'

/-- The regex character class `[一-龯]` of `edit.py` line 56. -/
def isKanji (c : Char) : Bool := '一' ≤ c && c ≤ '龯'

/-- The regex character class `[A-Za-z0-9]`. -/
def isAlnumAscii (c : Char) : Bool :=
  ('A' ≤ c && c ≤ 'Z') || ('a' ≤ c && c ≤ 'z') || ('0' ≤ c && c ≤ '9')

/-- The regex character class `[0-9A-Fa-f]` of `edit.py` line 43. -/
def isHexAscii (c : Char) : Bool :=
  ('0' ≤ c && c ≤ '9') || ('A' ≤ c && c ≤ 'F') || ('a' ≤ c && c ≤ 'f')

/-- The combined class `[あ-んア-ン]` of `edit.py` line 29. -/
def isJpKana (c : Char) : Bool := isHiragana c || isKatakana c

/-- Whitespace stripped by Python's `str.strip()` (ASCII whitespace and
the ideographic space). -/
def pyIsSpace (c : Char) : Bool :=
  c == ' ' || c == '\t' || c == '\n' || c == '\r' || c == '\x0b' || c == '\x0c' ||
    c == '　'

/-- Python `str.strip()`: drop leading and trailing whitespace. -/
def pyStrip (s : List Char) : List Char :=
  ((s.dropWhile pyIsSpace).reverse.dropWhile pyIsSpace).reverse

/-! ### A small regular-expression engine

The classifier uses `re.findall` with patterns that are sequences of
character-class repetitions (`{1}`, `{1,3}`, `{2}`, `{3,}`).  `RxItem`
is one such repetition; `rxMatch` is Python's leftmost greedy matching
with backtracking (try the largest repetition count first, then back
off), and `pyFindallCount` is the number of non-overlapping matches
`re.findall` reports, scanning left to right and resuming after each
match.  The engine was cross-checked against CPython's `re` on the
pattern/input pairs exercised by the proofs below. -/

/-- One repetition item of a pattern: a character class `pred` repeated
at least `lo` and (when `hi = some h`) at most `h` times, greedily. -/
structure RxItem where
  pred : Char → Bool
  lo : Nat
  hi : Option Nat

/-- Length of the longest prefix whose characters all satisfy `p`. -/
def prefWhile (p : Char → Bool) : List Char → Nat
  | [] => 0
  | c :: cs => if p c then prefWhile p cs + 1 else 0

/-- Greedy backtracking match of a pattern against a prefix of `cs`;
returns the remaining suffix on success.  For each item the largest
feasible repetition count is tried first, backing off to `lo`. -/
def rxMatch : List RxItem → List Char → Option (List Char)
  | [], cs => some cs
  | it :: rest, cs =>
    let cap := match it.hi with
      | some h => min (prefWhile it.pred cs) h
      | none => prefWhile it.pred cs
    (((List.range (cap + 1)).reverse).filterMap
      (fun n => if it.lo ≤ n then rxMatch rest (cs.drop n) else none)).head?

/-- Worker for `pyFindallCount`; the fuel starts at the input length and
bounds the number of scan steps (every step consumes at least one
character for the patterns in use, whose items all have `lo ≥ 1`). -/
def findallCnt (items : List RxItem) : Nat → List Char → Nat
  | 0, _ => 0
  | _, [] => 0
  | fuel + 1, c :: cs =>
    match rxMatch items (c :: cs) with
    | some rest =>
      if rest.length < cs.length + 1 then 1 + findallCnt items fuel rest
      else 1 + findallCnt items fuel cs
    | none => findallCnt items fuel cs

/-- `len(re.findall(pattern, s))`: number of non-overlapping matches. -/
def pyFindallCount (items : List RxItem) (s : List Char) : Nat :=
  findallCnt items s.length s

/-- `r'[あ-ん]{1}[A-Za-z0-9]{1,3}[あ-ん]{1}[A-Za-z0-9]{1,3}'` (`edit.py` line 27). -/
def nonsenseRx1 : List RxItem :=
  [⟨isHiragana, 1, some 1⟩, ⟨isAlnumAscii, 1, some 3⟩, ⟨isHiragana, 1, some 1⟩,
   ⟨isAlnumAscii, 1, some 3⟩]

/-- `r'[ア-ン]{1}[A-Za-z0-9]{1,3}[ア-ン]{1}[A-Za-z0-9]{1,3}'` (`edit.py` line 28). -/
def nonsenseRx2 : List RxItem :=
  [⟨isKatakana, 1, some 1⟩, ⟨isAlnumAscii, 1, some 3⟩, ⟨isKatakana, 1, some 1⟩,
   ⟨isAlnumAscii, 1, some 3⟩]

/-- `r'[あ-んア-ン]{3,}[A-Za-z0-9]{1,3}[あ-んア-ン]{3,}'` (`edit.py` line 29). -/
def nonsenseRx3 : List RxItem :=
  [⟨isJpKana, 3, none⟩, ⟨isAlnumAscii, 1, some 3⟩, ⟨isJpKana, 3, none⟩]

/-- The `nonsense_patterns` list of `edit.py` lines 26-30. -/
def nonsense_patterns : List (List RxItem) := [nonsenseRx1, nonsenseRx2, nonsenseRx3]

/-- `nonsense_count`: total matches over the three patterns (`edit.py`
lines 32-35). -/
def nonsenseCount (content : List Char) : Nat :=
  (nonsense_patterns.map (fun p => pyFindallCount p content)).sum

/-- `r'%[0-9A-Fa-f]{2}'` (`edit.py` line 43). -/
def percentEncRx : List RxItem :=
  [⟨fun c => c == '%', 1, some 1⟩, ⟨isHexAscii, 2, some 2⟩]

/-- `re.findall(r'(.)\1{5,}', content)` is non-empty: some character other
than a newline (`.` does not match `\n`) occurs at least 6 times in a
row (`edit.py` line 48). -/
def hasRepeatRun : List Char → Bool
  | [] => false
  | c :: cs =>
    if c != '\n' && (cs.take 5).length == 5 && (cs.take 5).all (· == c) then true
    else hasRepeatRun cs

/-- The `spam_keywords` list of `edit.py` lines 67-70. -/
def spam_keywords : List (List Char) :=
  ["最終更新:2025-05-03".data, "ページトップ...".data]

/-- Python's `k in s` on strings: `k` occurs as a contiguous substring. -/
def hasSubstr (k : List Char) : List Char → Bool
  | [] => k.isEmpty
  | c :: cs => k.isPrefixOf (c :: cs) || hasSubstr k cs

/-! ### The six spam heuristics of `is_spam_page` -/

/-- Heuristic 1 (`edit.py` lines 19-22): trimmed content shorter than 50. -/
def rule1 (content : List Char) : Bool :=
  decide ((pyStrip content).length < 50)

/-- Heuristic 2 (`edit.py` lines 24-40): `nonsense_count > len(content) * 0.3`,
written integrally (`x > y * 3/10 ↔ y * 3 < x * 10` exactly over ℚ). -/
def rule2 (content : List Char) : Bool :=
  decide (content.length * 3 < nonsenseCount content * 10)

/-- Heuristic 3 (`edit.py` lines 42-45): more than 20 percent-encoded
byte sequences in the URL. -/
def rule3 (url : List Char) : Bool :=
  decide (20 < pyFindallCount percentEncRx url)

/-- Heuristic 4 (`edit.py` lines 47-51): some character repeated 6+ times. -/
def rule4 (content : List Char) : Bool := hasRepeatRun content

/-- The native-script character count of `edit.py` lines 54-56:
`hiragana_count + katakana_count + kanji_count`. -/
def japaneseCount (content : List Char) : Nat :=
  content.countP isHiragana + content.countP isKatakana + content.countP isKanji

/-- The `japanese_ratio` of `edit.py` line 61, over ℚ. -/
def japaneseRatioQ (content : List Char) : ℚ :=
  (japaneseCount content : ℚ) / (content.length : ℚ)

/-- Heuristic 5 (`edit.py` lines 53-64): evaluated only when the text is
non-empty; fires when the native-script ratio is below 0.3.  The ratio
comparison `japanese_ratio < 0.3` is written integrally
(`x / y < 3/10 ↔ x * 10 < y * 3` for `y > 0`, proved as
`japaneseRatioQ_lt_iff`). -/
def rule5 (content : List Char) : Bool :=
  if 0 < content.length then
    decide (japaneseCount content * 10 < content.length * 3)
  else false

/-- Heuristic 6 (`edit.py` lines 66-75): a known spam keyword occurs as a
substring. -/
def rule6 (content : List Char) : Bool :=
  spam_keywords.any (fun k => hasSubstr k content)

/-- `is_spam_page(content, title, url)` (`edit.py` lines 15-77): the six
heuristics in source order, first match wins; `title` is only printed,
never examined. -/
def is_spam_page (content title url : List Char) : Bool :=
  if rule1 content then true
  else if rule2 content then true
  else if rule3 url then true
  else if rule4 content then true
  else if rule5 content then true
  else if rule6 content then true
  else false

/-- The diagnostic each `return True` branch of `is_spam_page` prints. -/
inductive SpamReason where
  | tooShort
  | nonsense
  | encodedUrl
  | repeatedChars
  | lowNative
  | keywordMatch
  | clean
  deriving DecidableEq

/-- Which heuristic fires first (the diagnostic printed by
`is_spam_page`), `clean` when none does. -/
def spam_reason (content title url : List Char) : SpamReason :=
  if rule1 content then .tooShort
  else if rule2 content then .nonsense
  else if rule3 url then .encodedUrl
  else if rule4 content then .repeatedChars
  else if rule5 content then .lowNative
  else if rule6 content then .keywordMatch
  else .clean

/-- The integral form of heuristic 5 equals the rational-ratio
comparison the source writes. -/
theorem japaneseRatioQ_lt_iff (content : List Char) (h : 0 < content.length) :
    japaneseRatioQ content < 3 / 10 ↔
      japaneseCount content * 10 < content.length * 3 := by
  rw [japaneseRatioQ, div_lt_div_iff₀ (by exact_mod_cast h) (by norm_num)]
  norm_cast
  omega

/-! ### The filtered-rebuild entry points of `edit.py` -/

/-- One document as `edit.py` sees it after loading the index:
`page_content`, and the `title` / `source` metadata (already defaulted
per lines 113-114 / 183-184). -/
structure EDoc where
  page_content : List Char
  title : List Char
  source : List Char
  deriving DecidableEq

def FAISS_INDEX_PATH : String := "faiss_index"

def CLEANED_FAISS_INDEX_PATH : String := "faiss_index_cleaned"

/-- `is_spam_page` applied to a loaded document as in `edit.py`
lines 111-116 / 181-186. -/
def is_spam_doc (d : EDoc) : Bool :=
  is_spam_page d.page_content d.title d.source

/-- The `stats` record written to `cleaning_stats.json`
(`edit.py` lines 138-143 / 228-233). -/
structure CleaningStats where
  original_count : Nat
  cleaned_count : Nat
  spam_count : Nat
  spam_rate : ℚ

/-- Outcome of a filtered rebuild: the early `return` of the
all-documents-excluded branch (lines 125-127 / 215-217), the early
`return` of the unparsable interactive input (lines 200-204), or a
written cleaned index with its statistics. -/
inductive FilterResult where
  | empty_result
  | invalid_input
  | written (stats : CleaningStats) (clean_documents : List EDoc)

/-- `filter_spam_documents()` (`edit.py` lines 79-152), from the loaded
document list onwards.  Returns the outcome together with the list of
file paths the run writes; the loop of lines 111-119 that appends
non-spam documents and counts spam ones is rendered as a filter and a
count over the same predicate. -/
def filter_spam_documents (all_documents : List EDoc) :
    FilterResult × List String :=
  let clean_documents := all_documents.filter (fun d => !is_spam_doc d)
  let spam_count := all_documents.countP (fun d => is_spam_doc d)
  if clean_documents.length = 0 then (.empty_result, [])
  else
    (.written
      ⟨all_documents.length, clean_documents.length, spam_count,
        (spam_count : ℚ) / (all_documents.length : ℚ) * 100⟩
      clean_documents,
      [CLEANED_FAISS_INDEX_PATH, "cleaning_stats.json"])

/-- `filter_spam_documents_with_user_input()` (`edit.py` lines 154-242),
from the loaded document list onwards.  `parsed` is the user's
comma-separated input after `int()`-parsing each entry: `none` when some
entry fails to parse (the `ValueError` branch, lines 202-204).  The kept
documents are those of `all_documents` whose enumeration index is not in
`exclude_indices` (lines 207-210); the spam-candidate listing of lines
179-196 only prints and is omitted. -/
def filter_spam_documents_with_user_input (all_documents : List EDoc)
    (parsed : Option (List Int)) : FilterResult × List String :=
  match parsed with
  | none => (.invalid_input, [])
  | some entries =>
    let exclude_indices := entries.map (fun i => i - 1)
    let clean_documents :=
      (all_documents.enum.filter
        (fun p => decide ((p.1 : Int) ∉ exclude_indices))).map Prod.snd
    if clean_documents.length = 0 then (.empty_result, [])
    else
      (.written
        ⟨all_documents.length, clean_documents.length, entries.length,
          (entries.length : ℚ) / (all_documents.length : ℚ) * 100⟩
        clean_documents,
        [CLEANED_FAISS_INDEX_PATH, "cleaning_stats.json"])

/-! ### `screiping.py`: sitemap, diff, merge, chunk, persist -/

/-- A crawled page as `screiping.py` builds it (`scrape_single_page`,
lines 84-102): the `source` metadata is always the fetched URL. -/
structure Doc where
  source : String
  title : List Char
  page_content : List Char
  deriving DecidableEq

/-- Python dict assignment `m[k] = v` on an association list: replace
the value in place when the key is present, append otherwise. -/
def dinsert {β : Type} (k : String) (v : β) :
    List (String × β) → List (String × β)
  | [] => [(k, v)]
  | (k', v') :: rest =>
    if k' = k then (k, v) :: rest else (k', v') :: dinsert k v rest

/-- Python `dict.get(u)`: the value stored at key `u`, if any. -/
def lookupToken : List (String × String) → String → Option String
  | [], _ => none
  | (k, v) :: rest, u => if k = u then some v else lookupToken rest u

/-- Python `u in m` on a dict modelled as an association list. -/
def containsKey (m : List (String × String)) (u : String) : Bool :=
  m.any (fun p => p.1 == u)

/-- Outcome of requesting and parsing the sitemap: a parsed entry list
(each `loc` with its optional `lastmod`), or one of the two caught
failures of `load_sitemap` (`requests.RequestException`,
`etree.XMLSyntaxError`; `screiping.py` lines 58-63). -/
inductive SitemapFetch where
  | success (entries : List (String × Option String))
  | request_error
  | xml_error

/-- `load_sitemap` (`screiping.py` lines 39-63): on success build the
`url_data` dict with `'N/A'` for a missing `lastmod`; on either caught
failure print and return the empty dict. -/
def load_sitemap : SitemapFetch → List (String × String)
  | .success entries =>
    entries.foldl (fun m e => dinsert e.1 (e.2.getD "N/A") m) []
  | .request_error => []
  | .xml_error => []

/-- The diff step (`screiping.py` lines 110-114): URLs of the sitemap
that are absent from the local manifest or carry a different token. -/
def urls_to_update (sitemap_data local_meta : List (String × String)) :
    List String :=
  (sitemap_data.filter (fun p =>
    (lookupToken local_meta p.1).isNone ||
      decide (lookupToken local_meta p.1 ≠ some p.2))).map Prod.fst

/-- `{doc.metadata['source']: doc for doc in local_docs}`
(`screiping.py` line 124). -/
def docs_to_map (docs : List Doc) : List (String × Doc) :=
  docs.foldl (fun m d => dinsert d.source d m) []

/-- The fetch loop of `screiping.py` lines 126-131: for each URL to
update, a successful scrape (yielding a title and a body; the stored
`source` is the URL itself) overwrites the map entry, a failed one is
skipped. -/
def apply_updates (fetch : String → Option (List Char × List Char))
    (urls : List String) (m : List (String × Doc)) : List (String × Doc) :=
  urls.foldl (fun m u =>
    match fetch u with
    | some r => dinsert u ⟨u, r.1, r.2⟩ m
    | none => m) m

/-- Modelled from the spec: the text chunker (`RecursiveCharacterTextSplitter`,
window 1000 / overlap 100, §4.3 of the spec) is library code not part of
this repository.  Only what the claims rely on is modelled: fixed
windows with trailing overlap, empty text yielding no chunks, and every
chunk inheriting its page's metadata (see `split_documents`). -/
def chunkTextAux (fuel : Nat) (s : List Char) : List (List Char) :=
  match fuel with
  | 0 => if s.isEmpty then [] else [s]
  | fuel + 1 =>
    if s.length ≤ 1000 then
      if s.isEmpty then [] else [s]
    else
      s.take 1000 :: chunkTextAux fuel (s.drop 900)

/-- The chunker applied to one text: windows of 1000 with 100 overlap.
The fuel of `chunkTextAux` starts at the text length, which bounds the
number of windows; the zero-fuel case is only reachable on empty
input, where it agrees with the main branch. -/
def chunkText (s : List Char) : List (List Char) := chunkTextAux s.length s

/-- `text_splitter.split_documents(final_docs)` (`screiping.py`
lines 141-145): chunk every document, each chunk keeping its source
document's metadata. -/
def split_documents (docs : List Doc) : List Doc :=
  docs.flatMap (fun d =>
    (chunkText d.page_content).map (fun t => ⟨d.source, d.title, t⟩))

/-- One file write of the persist step (`screiping.py` lines 148-157):
the FAISS index (`vectorstore.save_local`), then via
`save_local_state` the raw-document store (`documents.pkl`) and the
manifest (`metadata.json`). -/
inductive WriteEvent where
  | write_index (chunks : List Doc)
  | write_docs_file (docs : List Doc)
  | write_meta_file (meta : List (String × String))
  deriving DecidableEq

/-- The persist step (`screiping.py` lines 148-159) as the ordered
sequence of file writes it performs: nothing when there are no chunks,
otherwise the index write followed by the two `save_local_state`
writes. -/
def persist_events (chunked_docs final_docs : List Doc)
    (sitemap_data : List (String × String)) : List WriteEvent :=
  if chunked_docs.isEmpty then []
  else
    [.write_index chunked_docs, .write_docs_file final_docs,
     .write_meta_file sitemap_data]

/-- What one sync run does (`screiping.py` `__main__`, lines 105-161),
as a function of the loaded sitemap, the loaded local state, whether a
persisted index already exists, and the per-URL fetch results:
the URLs it fetches, the chunks it produces, and the file writes it
performs, in order. -/
structure SyncOutput where
  fetched_urls : List String
  chunked_docs : List Doc
  writes : List WriteEvent
  deriving DecidableEq

/-- The sync pipeline of `screiping.py` lines 105-161: diff, then either
the no-op short-circuit (line 118), or merge fetched pages over the
known page set, drop pages no longer in the sitemap (line 134) — the
merge/filter only happens when the diff set is non-empty (lines
122-137) — chunk, and persist. -/
def run_sync (sitemap_data : List (String × String)) (local_docs : List Doc)
    (local_meta : List (String × String)) (index_exists : Bool)
    (fetch : String → Option (List Char × List Char)) : SyncOutput :=
  let upd := urls_to_update sitemap_data local_meta
  if upd.isEmpty && index_exists then
    ⟨[], [], []⟩
  else
    let final_docs :=
      if upd.isEmpty then local_docs
      else
        let m := apply_updates fetch upd (docs_to_map local_docs)
        (m.filter (fun p => containsKey sitemap_data p.1)).map Prod.snd
    let chunked := split_documents final_docs
    ⟨upd, chunked, persist_events chunked final_docs sitemap_data⟩

/-- The three files the persist step touches, as a store; `none` means
the file does not exist yet. -/
structure Store where
  index_file : Option (List Doc)
  docs_file : Option (List Doc)
  meta_file : Option (List (String × String))
  deriving DecidableEq

/-- Effect of one file write on the store. -/
def apply_event (s : Store) : WriteEvent → Store
  | .write_index c => { s with index_file := some c }
  | .write_docs_file d => { s with docs_file := some d }
  | .write_meta_file m => { s with meta_file := some m }

/-- Effect of a sequence of file writes; a run interrupted after `k`
writes has applied exactly the length-`k` prefix. -/
def apply_events (s : Store) (es : List WriteEvent) : Store :=
  es.foldl apply_event s

/-! ### Supporting lemmas -/

/-- The diff condition of `screiping.py` line 113 holds exactly when the
manifest does not bind the URL to the sitemap's token. -/
theorem diff_cond_iff (o : Option String) (t : String) :
    (o.isNone || decide (o ≠ some t)) = true ↔ o ≠ some t := by
  cases o <;> simp

/-- When the diff set is empty and an index exists, the run is the no-op
short-circuit of `screiping.py` line 118. -/
theorem run_sync_noop (sitemap_data : List (String × String))
    (local_docs : List Doc) (local_meta : List (String × String))
    (fetch : String → Option (List Char × List Char))
    (h : urls_to_update sitemap_data local_meta = []) :
    run_sync sitemap_data local_docs local_meta true fetch = ⟨[], [], []⟩ := by
  simp [run_sync, h]

/-- Membership after a dict assignment: the new binding or an old one. -/
theorem mem_dinsert {β : Type} (k : String) (v : β) (m : List (String × β))
    (p : String × β) (hp : p ∈ dinsert k v m) : p = (k, v) ∨ p ∈ m := by
  induction m with
  | nil => simpa [dinsert] using hp
  | cons q m ih =>
    rw [dinsert] at hp
    by_cases hq : q.1 = k
    · rw [if_pos hq] at hp
      rcases List.mem_cons.mp hp with h | h
      · exact Or.inl h
      · exact Or.inr (List.mem_cons_of_mem q h)
    · rw [if_neg hq] at hp
      rcases List.mem_cons.mp hp with h | h
      · exact Or.inr (h ▸ List.mem_cons_self q m)
      · rcases ih h with h' | h'
        · exact Or.inl h'
        · exact Or.inr (List.mem_cons_of_mem q h')

/-- Every entry of the page map built by the fetch loop binds a URL to a
document whose `source` metadata is that URL. -/
theorem apply_updates_source (fetch : String → Option (List Char × List Char))
    (urls : List String) :
    ∀ (m : List (String × Doc)), (∀ p ∈ m, p.2.source = p.1) →
      ∀ p ∈ apply_updates fetch urls m, p.2.source = p.1 := by
  induction urls with
  | nil => intro m hm p hp; exact hm p hp
  | cons u urls ih =>
    intro m hm p hp
    rw [apply_updates] at hp
    refine ih _ ?_ p (by simpa [apply_updates] using hp)
    intro q hq
    cases hf : fetch u with
    | none => exact hm q (by simpa [hf] using hq)
    | some r =>
      rw [hf] at hq
      rcases mem_dinsert _ _ _ _ hq with h | h
      · rw [h]
      · exact hm q h

/-- Every entry of `docs_to_map` binds a URL to a document with that
`source`. -/
theorem docs_to_map_source (docs : List Doc) :
    ∀ p ∈ docs_to_map docs, p.2.source = p.1 := by
  suffices h : ∀ (m : List (String × Doc)), (∀ p ∈ m, p.2.source = p.1) →
      ∀ p ∈ docs.foldl (fun m d => dinsert d.source d m) m, p.2.source = p.1 by
    exact h [] (by simp)
  induction docs with
  | nil => intro m hm p hp; exact hm p hp
  | cons d docs ih =>
    intro m hm p hp
    refine ih _ ?_ p hp
    intro q hq
    rcases mem_dinsert _ _ _ _ hq with h | h
    · rw [h]
    · exact hm q h

/-- Every chunk keeps the `source` of some document it was split from. -/
theorem split_documents_source (docs : List Doc) (d : Doc)
    (hd : d ∈ split_documents docs) : ∃ d' ∈ docs, d.source = d'.source := by
  rw [split_documents, List.mem_flatMap] at hd
  rcases hd with ⟨d', hd', hmem⟩
  rcases List.mem_map.mp hmem with ⟨t, _, ht⟩
  exact ⟨d', hd', by rw [← ht]⟩

/-! ### C1 — diff correctness -/

/-- C1: the diff step returns exactly the URLs of the remote sitemap
that are absent from the local manifest or carry a token differing from
the manifest's; URLs present only in the manifest are never returned
(they satisfy no `(u, t) ∈ R`). -/
theorem C1_diff_returns_exactly_changed
    (R M : List (String × String)) (u : String) :
    u ∈ urls_to_update R M ↔
      ∃ t, (u, t) ∈ R ∧ lookupToken M u ≠ some t := by
  rw [urls_to_update, List.mem_map]
  constructor
  · rintro ⟨p, hp, rfl⟩
    rcases List.mem_filter.mp hp with ⟨hmem, hcond⟩
    exact ⟨p.2, hmem, (diff_cond_iff _ _).mp hcond⟩
  · rintro ⟨t, hmem, hne⟩
    exact ⟨(u, t), List.mem_filter.mpr ⟨hmem, (diff_cond_iff _ _).mpr hne⟩, rfl⟩

/-! ### C9 — idempotence under no remote changes -/

/-- C9: when every sitemap entry already matches the local manifest and
a persisted index exists, the run is a complete no-op: nothing is
fetched, no chunks are produced, and no file is written, so the
persisted index and manifest are untouched and a repeated run behaves
identically. -/
theorem C9_no_change_idempotent (sitemap_data : List (String × String))
    (local_docs : List Doc) (local_meta : List (String × String))
    (fetch : String → Option (List Char × List Char))
    (h : ∀ p ∈ sitemap_data, lookupToken local_meta p.1 = some p.2) :
    run_sync sitemap_data local_docs local_meta true fetch = ⟨[], [], []⟩ := by
  refine run_sync_noop _ _ _ _ ?_
  rw [urls_to_update, List.map_eq_nil_iff, List.filter_eq_nil_iff]
  intro p hp
  rw [h p hp]
  simp

/-- Witness for C9 at a concrete state: sitemap and manifest agree on
the single URL, and the run is the no-op. -/
theorem C9_no_change_witness :
    (∀ p ∈ [("A", "t1")], lookupToken [("A", "t1")] p.1 = some p.2) ∧
      run_sync [("A", "t1")] [⟨"A", [], ['x']⟩] [("A", "t1")] true
        (fun _ => none) = ⟨[], [], []⟩ :=
  ⟨by decide, C9_no_change_idempotent _ _ _ _ (by decide)⟩

/-! ### C8 — sitemap fetch/parse failure falls back to the manifest -/

/-- C8: when the sitemap request or its XML parse fails, the failure is
caught (the two `except` branches of `load_sitemap`), the run proceeds
with an empty remote entry set — so the diff against the local manifest
reports zero updates — and, because a persisted index exists, it
terminates through the short-circuit without writing any file: the
existing index and manifest are unchanged. -/
theorem C8_sitemap_failure_fallback (e : SitemapFetch)
    (local_docs : List Doc) (local_meta : List (String × String))
    (fetch : String → Option (List Char × List Char))
    (he : e = SitemapFetch.request_error ∨ e = SitemapFetch.xml_error) :
    load_sitemap e = [] ∧
      urls_to_update (load_sitemap e) local_meta = [] ∧
      run_sync (load_sitemap e) local_docs local_meta true fetch =
        ⟨[], [], []⟩ := by
  have h0 : load_sitemap e = [] := by
    rcases he with rfl | rfl <;> rfl
  refine ⟨h0, ?_, ?_⟩
  · rw [h0]; rfl
  · exact run_sync_noop _ _ _ _ (by rw [h0]; rfl)

/-- Witness for C8: a failed request against a concrete local state. -/
theorem C8_sitemap_failure_witness :
    load_sitemap SitemapFetch.request_error = [] ∧
      urls_to_update (load_sitemap SitemapFetch.request_error)
        [("A", "t1")] = [] ∧
      run_sync (load_sitemap SitemapFetch.request_error)
        [⟨"A", [], ['x']⟩] [("A", "t1")] true (fun _ => none) = ⟨[], [], []⟩ :=
  C8_sitemap_failure_fallback _ _ _ _ (Or.inl rfl)

/-! ### C2 — deleted-page pruning -/

/-- Sitemap for the pruning scenario: only A and B remain remotely. -/
def c2_sitemap : List (String × String) := [("A", "t1"), ("B", "t2")]

/-- Local manifest for the pruning scenario: A, B and the
remotely-deleted C, with tokens matching the sitemap. -/
def c2_meta : List (String × String) := [("A", "t1"), ("B", "t2"), ("C", "t3")]

/-- Local corpus for the pruning scenario: pages A, B and C. -/
def c2_docs : List Doc := [⟨"A", [], ['a']⟩, ⟨"B", [], ['b']⟩, ⟨"C", [], ['c']⟩]

/-- C2 counterexample: with corpus {A, B, C}, a sitemap containing only
{A, B} whose tokens match the manifest, and no persisted index, the
diff set is empty, so the run takes the `final_docs = local_docs` branch
(`screiping.py` line 137) and never applies the sitemap filter: a chunk
derived from C survives the sync even though C is gone from the sitemap.
This refutes the claim for runs whose diff set is empty. -/
theorem C2_counterexample_deleted_page_survives :
    urls_to_update c2_sitemap c2_meta = [] ∧
      containsKey c2_sitemap "C" = false ∧
      (run_sync c2_sitemap c2_docs c2_meta false (fun _ => none)).chunked_docs.any
        (fun d => d.source == "C") = true := by decide

/-- C2 as amended: whenever the diff set is non-empty — so the
merge-then-filter branch of `screiping.py` lines 122-134 runs — every
chunk produced by the sync derives from a page whose URL is present in
the current remote sitemap; pages deleted remotely are dropped before
chunking. -/
theorem C2_pruning_when_diff_nonempty (sitemap_data : List (String × String))
    (local_docs : List Doc) (local_meta : List (String × String))
    (index_exists : Bool) (fetch : String → Option (List Char × List Char))
    (h : urls_to_update sitemap_data local_meta ≠ []) :
    ∀ d ∈ (run_sync sitemap_data local_docs local_meta index_exists
        fetch).chunked_docs, containsKey sitemap_data d.source = true := by
  intro d hd
  have hie : (urls_to_update sitemap_data local_meta).isEmpty = false := by
    cases hu : urls_to_update sitemap_data local_meta with
    | nil => exact absurd hu h
    | cons a l => rfl
  rw [run_sync] at hd
  simp only [hie, Bool.false_and, Bool.false_eq_true, if_false] at hd
  obtain ⟨d', hd', hsrc⟩ := split_documents_source _ _ hd
  obtain ⟨p, hp, rfl⟩ := List.mem_map.mp hd'
  obtain ⟨hpm, hpc⟩ := List.mem_filter.mp hp
  have hps : p.2.source = p.1 :=
    apply_updates_source _ _ _ (docs_to_map_source _) p hpm
  rw [hsrc, hps]
  exact hpc

/-- Witness for the amended C2: one URL needs re-fetching, and every
chunk of the resulting sync has its source in the sitemap. -/
theorem C2_pruning_witness :
    urls_to_update [("A", "t1")] [] ≠ [] ∧
      ∀ d ∈ (run_sync [("A", "t1")] [⟨"C", [], ['c']⟩] [] false
          (fun u => if u = "A" then some ([], ['a']) else none)).chunked_docs,
        containsKey [("A", "t1")] d.source = true :=
  ⟨by decide, C2_pruning_when_diff_nonempty _ _ _ _ _ (by decide)⟩

/-! ### C4 — atomicity of the index/manifest pair -/

/-- Store before the interrupted run: a prior index, document store and
manifest, all consistent with token `t1` for URL A. -/
def c4_store0 : Store :=
  ⟨some [⟨"A", [], ['x']⟩], some [⟨"A", [], ['x']⟩], some [("A", "t1")]⟩

/-- A sync run that re-fetches A (token changed to `t2`). -/
def c4_out : SyncOutput :=
  run_sync [("A", "t2")] [⟨"A", [], ['x']⟩] [("A", "t1")] true
    (fun u => if u = "A" then some ([], ['y']) else none)

/-- C4 counterexample: the persist step is three separate file writes
(`vectorstore.save_local` then `save_local_state`, `screiping.py` lines
148-157) with no atomicity mechanism.  A run interrupted after the
first write leaves the new index on disk next to the stale manifest:
the resulting store is neither the prior pair nor the new pair, refuting
the claim for interrupted runs. -/
theorem C4_counterexample_interrupted_persist :
    c4_out.writes.length = 3 ∧
      (apply_events c4_store0 (c4_out.writes.take 1)).index_file =
        some c4_out.chunked_docs ∧
      (apply_events c4_store0 (c4_out.writes.take 1)).meta_file =
        some [("A", "t1")] ∧
      ¬(apply_events c4_store0 (c4_out.writes.take 1) = c4_store0 ∨
        apply_events c4_store0 (c4_out.writes.take 1) =
          apply_events c4_store0 c4_out.writes) := by decide

/-- C4 as amended: a persist step that runs to completion does update
index, document store and manifest together — the caller who lets the
run finish sees both files reflect the new crawl state — but atomicity
under interruption (as the counterexample shows) does not hold. -/
theorem C4_uninterrupted_persist_pairs (chunked final_docs : List Doc)
    (sitemap_data : List (String × String)) (s : Store)
    (h : chunked ≠ []) :
    apply_events s (persist_events chunked final_docs sitemap_data) =
      ⟨some chunked, some final_docs, some sitemap_data⟩ := by
  have hie : chunked.isEmpty = false := by
    cases chunked with
    | nil => exact absurd rfl h
    | cons a l => rfl
  simp [persist_events, hie, apply_events, apply_event]

/-- Witness for the amended C4: a completed persist of one chunk leaves
all three files holding the new state. -/
theorem C4_persist_witness :
    ([⟨"A", [], ['y']⟩] : List Doc) ≠ [] ∧
      apply_events ⟨none, none, none⟩
          (persist_events [⟨"A", [], ['y']⟩] [⟨"A", [], ['y']⟩] [("A", "t2")]) =
        ⟨some [⟨"A", [], ['y']⟩], some [⟨"A", [], ['y']⟩], some [("A", "t2")]⟩ :=
  ⟨by decide, C4_uninterrupted_persist_pairs _ _ _ _ (by decide)⟩

/-! ### Position-based view of the interactive exclusion -/

/-- Filtering an enumerated list on the index and keeping the values is
the same as walking the index range and keeping the positions the
predicate accepts. -/
theorem enumFrom_filter_map_snd {α : Type} (q : Nat → Bool) :
    ∀ (l : List α) (n : Nat),
      ((List.enumFrom n l).filter (fun p => q p.1)).map Prod.snd =
        (List.range l.length).filterMap
          (fun i => if q (n + i) then l[i]? else none)
  | [], n => by simp
  | a :: l, n => by
    have harg : ((fun i => if q (n + i) then (a :: l)[i]? else none) ∘ (· + 1)) =
        (fun i => if q (n + 1 + i) then l[i]? else none) := by
      funext i
      have h1 : n + (i + 1) = n + 1 + i := by omega
      simp [Function.comp, List.getElem?_cons_succ, h1]
    rw [List.enumFrom_cons, List.length_cons, List.range_succ_eq_map,
      List.filter_cons]
    simp only [List.filterMap_cons, List.filterMap_map, harg,
      ← enumFrom_filter_map_snd q l (n + 1)]
    by_cases hq : q n <;> simp [hq]

/-- The interactive kept-list, as the claim words it: the documents
whose 0-based position is absent from the list of parsed entries minus
one.  This is the reference definition the code path is compared with
(`user_clean_eq_kept`). -/
def kept_by_positions (docs : List EDoc) (entries : List Int) : List EDoc :=
  (List.range docs.length).filterMap
    (fun (i : Nat) =>
      if ((i : Int)) ∈ entries.map (fun e => e - 1) then none else docs[i]?)

/-- The kept documents computed by
`filter_spam_documents_with_user_input` are exactly the position-based
reference list. -/
theorem user_clean_eq_kept (docs : List EDoc) (entries : List Int) :
    (docs.enum.filter
        (fun p => decide ((p.1 : Int) ∉ entries.map (fun e => e - 1)))).map
      Prod.snd = kept_by_positions docs entries := by
  rw [List.enum, enumFrom_filter_map_snd
    (fun i => decide ((i : Int) ∉ entries.map (fun e => e - 1))) docs 0]
  rw [kept_by_positions]
  refine congrArg (fun f => List.filterMap f (List.range docs.length)) ?_
  funext i
  simp only [Nat.zero_add]
  by_cases h : ((i : Int)) ∈ entries.map (fun e => e - 1) <;> simp [h]

/-! ### C10 — exact semantics of the interactive exclusion -/

/-- C10: for any all-integer comma-separated input, the kept documents
are exactly the ones whose 0-based position is not among the parsed
entries minus one — so an out-of-range or duplicate entry removes
nothing further — while the reported excluded count is the number of
entered entries (`len(exclude_indices)`, `edit.py` line 231), not the
number of documents actually removed. -/
theorem C10_user_exclusion_exact (docs : List EDoc) (entries : List Int) :
    filter_spam_documents_with_user_input docs (some entries) =
      (if (kept_by_positions docs entries).length = 0 then (.empty_result, [])
       else
        (.written
          ⟨docs.length, (kept_by_positions docs entries).length, entries.length,
            (entries.length : ℚ) / (docs.length : ℚ) * 100⟩
          (kept_by_positions docs entries),
          [CLEANED_FAISS_INDEX_PATH, "cleaning_stats.json"])) := by
  rw [filter_spam_documents_with_user_input]
  rw [user_clean_eq_kept docs entries]

/-! ### C3 — empty-result refusal -/

/-- C3: when every loaded document is classified spam, the automatic
filtered rebuild stops at the all-excluded early return (`edit.py`
lines 125-127) and writes no file at all; likewise the interactive path
when the user's entries exclude every position (lines 215-217).  In
particular the previously persisted index at `FAISS_INDEX_PATH` is not
among the written paths, hence unmodified (neither path ever writes to
it: a successful rebuild writes only the cleaned location and the stats
file). -/
theorem C3_empty_result_refusal (docs : List EDoc) (entries : List Int)
    (hspam : ∀ d ∈ docs, is_spam_doc d = true)
    (hexcl : ∀ i : Nat, i < docs.length →
      ((i : Int)) ∈ entries.map (fun e => e - 1)) :
    filter_spam_documents docs = (.empty_result, []) ∧
      filter_spam_documents_with_user_input docs (some entries) =
        (.empty_result, []) ∧
      FAISS_INDEX_PATH ∉ (filter_spam_documents docs).2 ∧
      FAISS_INDEX_PATH ∉
        (filter_spam_documents_with_user_input docs (some entries)).2 := by
  have h1 : docs.filter (fun d => !is_spam_doc d) = [] := by
    rw [List.filter_eq_nil_iff]
    intro d hd
    simp [hspam d hd]
  have h2 : kept_by_positions docs entries = [] := by
    rw [kept_by_positions, List.filterMap_eq_nil_iff]
    intro i hi
    rw [if_pos (hexcl i (List.mem_range.mp hi))]
  have ha : filter_spam_documents docs = (.empty_result, []) := by
    rw [filter_spam_documents]
    simp [h1]
  have hb : filter_spam_documents_with_user_input docs (some entries) =
      (.empty_result, []) := by
    rw [filter_spam_documents_with_user_input, user_clean_eq_kept docs entries]
    simp [h2]
  refine ⟨ha, hb, ?_, ?_⟩
  · rw [ha]; simp
  · rw [hb]; simp

/-- Witness for C3: a one-document corpus whose only page is spam
(too short), with the interactive input `1` excluding it. -/
theorem C3_empty_result_witness :
    (∀ d ∈ [(⟨"ab".data, [], []⟩ : EDoc)], is_spam_doc d = true) ∧
      (∀ i : Nat, i < [(⟨"ab".data, [], []⟩ : EDoc)].length →
        ((i : Int)) ∈ ([1] : List Int).map (fun e => e - 1)) ∧
      (filter_spam_documents [(⟨"ab".data, [], []⟩ : EDoc)] =
          (.empty_result, []) ∧
        filter_spam_documents_with_user_input [(⟨"ab".data, [], []⟩ : EDoc)]
            (some [1]) = (.empty_result, []) ∧
        FAISS_INDEX_PATH ∉
          (filter_spam_documents [(⟨"ab".data, [], []⟩ : EDoc)]).2 ∧
        FAISS_INDEX_PATH ∉
          (filter_spam_documents_with_user_input [(⟨"ab".data, [], []⟩ : EDoc)]
            (some [1])).2) :=
  ⟨by decide, by decide, C3_empty_result_refusal _ _ (by decide) (by decide)⟩

/-! ### C5 — statistics identities -/

/-- The statistics record of a filtered-rebuild outcome, when one was
written. -/
def statsOf : FilterResult → Option CleaningStats
  | .written s _ => some s
  | _ => none

/-- C5 counterexample: one document, interactive input `5` (out of
range).  The run writes statistics with `original = 1`, `kept = 1`,
`rejected = 1` — the out-of-range entry removed nothing but is still
counted — so `kept + rejected = original` fails. -/
theorem C5_counterexample_entry_out_of_range :
    (statsOf (filter_spam_documents_with_user_input [⟨['x'], [], []⟩]
          (some [5])).1).map
        (fun s => (s.original_count, s.cleaned_count, s.spam_count)) =
      some (1, 1, 1) ∧
    (statsOf (filter_spam_documents_with_user_input [⟨['x'], [], []⟩]
          (some [5])).1).map
        (fun s => decide (s.cleaned_count + s.spam_count = s.original_count)) =
      some false := by decide

/-- Counting both Boolean outcomes of a predicate covers the list. -/
theorem countP_not_add {α : Type} (p : α → Bool) (l : List α) :
    l.countP (fun a => !p a) + l.countP p = l.length := by
  induction l with
  | nil => simp
  | cons a l ih =>
    simp only [List.countP_cons, List.length_cons]
    cases h : p a <;> simp [h] <;> omega

/-- Counting a disjunction of disjoint predicates splits the count. -/
theorem countP_or_disjoint {α : Type} (p q : α → Bool) (l : List α)
    (h : ∀ a ∈ l, ¬(p a = true ∧ q a = true)) :
    l.countP (fun a => p a || q a) = l.countP p + l.countP q := by
  induction l with
  | nil => simp
  | cons a l ih =>
    have ha := h a (List.mem_cons_self a l)
    have hl : ∀ b ∈ l, ¬(p b = true ∧ q b = true) :=
      fun b hb => h b (List.mem_cons_of_mem a hb)
    simp only [List.countP_cons, ih hl]
    cases hp : p a <;> cases hq : q a <;> simp_all <;> omega

/-- A duplicate-free list of integers inside `[0, n)` hits exactly
`length`-many positions of `range n`. -/
theorem countP_int_mem_range (m : List Int) (n : Nat) (hm : m.Nodup)
    (hr : ∀ x ∈ m, 0 ≤ x ∧ x < (n : Int)) :
    (List.range n).countP (fun (i : Nat) => decide ((i : Int) ∈ m)) =
      m.length := by
  induction m with
  | nil => simp
  | cons x m ih =>
    obtain ⟨hx0, hxn⟩ := hr x (List.mem_cons_self x m)
    obtain ⟨hxm, hmnd⟩ := List.nodup_cons.mp hm
    have hsplit : (List.range n).countP
          (fun (i : Nat) => decide ((i : Int) ∈ x :: m)) =
        (List.range n).countP
          (fun (i : Nat) => decide ((i : Int) = x) || decide ((i : Int) ∈ m)) := by
      apply List.countP_congr
      intro i _
      simp [List.mem_cons]
    rw [hsplit, countP_or_disjoint _ _ _ ?dis]
    case dis =>
      intro i _ hcon
      obtain ⟨h1, h2⟩ := hcon
      rw [decide_eq_true_eq] at h1 h2
      exact hxm (h1 ▸ h2)
    have hone : (List.range n).countP
        (fun (i : Nat) => decide ((i : Int) = x)) = 1 := by
      have hcg : (List.range n).countP (fun (i : Nat) => decide ((i : Int) = x)) =
          (List.range n).countP (fun (i : Nat) => i == x.toNat) := by
        apply List.countP_congr
        intro i _
        simp only [decide_eq_true_eq, beq_iff_eq]
        omega
      rw [hcg, ← List.count_eq_countP]
      exact List.count_eq_one_of_mem (List.nodup_range n)
        (List.mem_range.mpr (by omega))
    rw [hone, ih hmnd (fun y hy => hr y (List.mem_cons_of_mem x hy))]
    simp [Nat.add_comm]

/-- With duplicate-free in-range exclusion entries, kept plus entered
equals the corpus size. -/
theorem kept_length_balance (docs : List EDoc) (entries : List Int)
    (hnd : entries.Nodup)
    (hr : ∀ e ∈ entries, 1 ≤ e ∧ e ≤ (docs.length : Int)) :
    (kept_by_positions docs entries).length + entries.length = docs.length := by
  have hmnd : (entries.map (fun e => e - 1)).Nodup :=
    hnd.map (fun a b hab => by omega)
  have hmr : ∀ x ∈ entries.map (fun e => e - 1),
      0 ≤ x ∧ x < (docs.length : Int) := by
    intro x hx
    obtain ⟨e, he, rfl⟩ := List.mem_map.mp hx
    have := hr e he
    omega
  have hlen : (kept_by_positions docs entries).length =
      (List.range docs.length).countP
        (fun (i : Nat) => decide ((i : Int) ∉ entries.map (fun e => e - 1))) := by
    rw [← user_clean_eq_kept, List.length_map, ← List.countP_eq_length_filter]
    have hfst : (fun (p : Nat × EDoc) =>
          decide ((p.1 : Int) ∉ entries.map (fun e => e - 1))) =
        (fun (i : Nat) => decide ((i : Int) ∉ entries.map (fun e => e - 1))) ∘
          Prod.fst := rfl
    rw [hfst, ← List.countP_map, List.enum_map_fst]
  have hnot : (List.range docs.length).countP
        (fun (i : Nat) => decide ((i : Int) ∉ entries.map (fun e => e - 1))) =
      (List.range docs.length).countP
        (fun (i : Nat) =>
          !(decide ((i : Int) ∈ entries.map (fun e => e - 1)))) := by
    apply List.countP_congr
    intro i _
    simp
  have htot := countP_not_add
    (fun (i : Nat) => decide ((i : Int) ∈ entries.map (fun e => e - 1)))
    (List.range docs.length)
  have hcnt := countP_int_mem_range (entries.map (fun e => e - 1))
    docs.length hmnd hmr
  have hml : (entries.map (fun e => e - 1)).length = entries.length :=
    List.length_map entries _
  rw [List.length_range] at htot
  omega

/-- C5 as amended: the statistics identities `kept + rejected = original`
and `rejectionRate = rejected / original * 100` hold for every automatic
filtered rebuild that writes statistics; for the interactive path they
hold whenever the parsed entries are pairwise distinct and each lies in
`[1, original]` — an out-of-range or duplicate entry (as in the
counterexample) makes the reported `rejected` exceed the number of
documents actually removed, breaking the total. -/
theorem C5_stats_identities (docs : List EDoc) (entries : List Int)
    (hauto : docs.filter (fun d => !is_spam_doc d) ≠ [])
    (hkept : kept_by_positions docs entries ≠ [])
    (hnd : entries.Nodup)
    (hr : ∀ e ∈ entries, 1 ≤ e ∧ e ≤ (docs.length : Int)) :
    filter_spam_documents docs =
      (.written
        ⟨docs.length, (docs.filter (fun d => !is_spam_doc d)).length,
          docs.countP (fun d => is_spam_doc d),
          ((docs.countP (fun d => is_spam_doc d) : ℚ) / (docs.length : ℚ) * 100)⟩
        (docs.filter (fun d => !is_spam_doc d)),
        [CLEANED_FAISS_INDEX_PATH, "cleaning_stats.json"]) ∧
      (docs.filter (fun d => !is_spam_doc d)).length +
          docs.countP (fun d => is_spam_doc d) = docs.length ∧
      filter_spam_documents_with_user_input docs (some entries) =
        (.written
          ⟨docs.length, (kept_by_positions docs entries).length, entries.length,
            ((entries.length : ℚ) / (docs.length : ℚ) * 100)⟩
          (kept_by_positions docs entries),
          [CLEANED_FAISS_INDEX_PATH, "cleaning_stats.json"]) ∧
      (kept_by_positions docs entries).length + entries.length =
        docs.length := by
  have hlauto : (docs.filter (fun d => !is_spam_doc d)).length ≠ 0 :=
    fun h => hauto (List.length_eq_zero.mp h)
  have hlkept : (kept_by_positions docs entries).length ≠ 0 :=
    fun h => hkept (List.length_eq_zero.mp h)
  refine ⟨?_, ?_, ?_, kept_length_balance docs entries hnd hr⟩
  · rw [filter_spam_documents]
    simp only [hlauto, if_false]
  · rw [List.countP_eq_length_filter]
    have := countP_not_add (fun d => is_spam_doc d) docs
    rw [List.countP_eq_length_filter, List.countP_eq_length_filter] at this
    omega
  · rw [filter_spam_documents_with_user_input, user_clean_eq_kept docs entries]
    simp only [hlkept, if_false]

/-- Witness for the amended C5: two clean 60-character documents,
interactive entry `2` (distinct, in range). -/
theorem C5_stats_witness :
    ([⟨"あいあいあいあいあいあいあいあいあいあいあいあいあいあいあいあいあいあいあいあいあいあいあいあいあいあいあいあいあいあい".data, [], []⟩,
        ⟨"あいあいあいあいあいあいあいあいあいあいあいあいあいあいあいあいあいあいあいあいあいあいあいあいあいあいあいあいあいあい".data, [], []⟩] :
      List EDoc).filter (fun d => !is_spam_doc d) ≠ [] ∧
      kept_by_positions
        [⟨"あいあいあいあいあいあいあいあいあいあいあいあいあいあいあいあいあいあいあいあいあいあいあいあいあいあいあいあいあいあい".data, [], []⟩,
          ⟨"あいあいあいあいあいあいあいあいあいあいあいあいあいあいあいあいあいあいあいあいあいあいあいあいあいあいあいあいあいあい".data, [], []⟩]
        [2] ≠ [] ∧
      ([2] : List Int).Nodup ∧
      (∀ e ∈ ([2] : List Int), 1 ≤ e ∧ e ≤
        (([⟨"あいあいあいあいあいあいあいあいあいあいあいあいあいあいあいあいあいあいあいあいあいあいあいあいあいあいあいあいあいあい".data, [], []⟩,
            ⟨"あいあいあいあいあいあいあいあいあいあいあいあいあいあいあいあいあいあいあいあいあいあいあいあいあいあいあいあいあいあい".data, [], []⟩] :
          List EDoc).length : Int)) ∧
      ((kept_by_positions
          [⟨"あいあいあいあいあいあいあいあいあいあいあいあいあいあいあいあいあいあいあいあいあいあいあいあいあいあいあいあいあいあい".data, [], []⟩,
            ⟨"あいあいあいあいあいあいあいあいあいあいあいあいあいあいあいあいあいあいあいあいあいあいあいあいあいあいあいあいあいあい".data, [], []⟩]
          [2]).length + ([2] : List Int).length =
        ([⟨"あいあいあいあいあいあいあいあいあいあいあいあいあいあいあいあいあいあいあいあいあいあいあいあいあいあいあいあいあいあい".data, [], []⟩,
            ⟨"あいあいあいあいあいあいあいあいあいあいあいあいあいあいあいあいあいあいあいあいあいあいあいあいあいあいあいあいあいあい".data, [], []⟩] :
          List EDoc).length) :=
  ⟨by decide, by decide, by decide, by decide,
    (C5_stats_identities _ _ (by decide) (by decide) (by decide)
      (by decide)).2.2.2⟩

/-! ### C6 — the TooShort boundary -/

/-- C6: the classifier reports TooShort exactly when the trimmed text is
strictly shorter than 50 characters; any document trimming to 49
characters is spam with that diagnosis, and any document trimming to 51
characters that passes every other heuristic is Clean (not spam). -/
theorem C6_too_short_boundary (content0 title0 url0 : List Char)
    (content title url content2 title2 url2 : List Char)
    (h49 : (pyStrip content).length = 49)
    (hb51 : (pyStrip content2).length = 51)
    (h2 : rule2 content2 = false) (h3 : rule3 url2 = false)
    (h4 : rule4 content2 = false) (h5 : rule5 content2 = false)
    (h6 : rule6 content2 = false) :
    (spam_reason content0 title0 url0 = .tooShort ↔
      (pyStrip content0).length < 50) ∧
      is_spam_page content title url = true ∧
      spam_reason content title url = .tooShort ∧
      is_spam_page content2 title2 url2 = false ∧
      spam_reason content2 title2 url2 = .clean := by
  have hiff : ∀ (c t u : List Char),
      spam_reason c t u = .tooShort ↔ rule1 c = true := by
    intro c t u
    by_cases hr1 : rule1 c
    · simp [spam_reason, hr1]
    · rw [spam_reason]
      simp only [hr1, Bool.false_eq_true, if_false]
      constructor
      · intro h
        exfalso
        revert h
        split_ifs <;> simp
      · intro h
        exact h.elim
  have r1 : rule1 content = true := by rw [rule1]; simp [h49]
  have r1' : rule1 content2 = false := by rw [rule1]; simp [hb51]
  refine ⟨(hiff content0 title0 url0).trans ?_, ?_, ?_, ?_, ?_⟩
  · rw [rule1]
    exact decide_eq_true_iff
  · simp [is_spam_page, r1]
  · exact (hiff content title url).mpr r1
  · simp [is_spam_page, r1', h2, h3, h4, h5, h6]
  · simp [spam_reason, r1', h2, h3, h4, h5, h6]

/-- Witness for C6: a 49-character string and a 51-character
all-hiragana string that passes heuristics 2-6. -/
theorem C6_too_short_witness :
    (pyStrip (List.replicate 49 'a')).length = 49 ∧
      (pyStrip "あいあいあいあいあいあいあいあいあいあいあいあいあいあいあいあいあいあいあいあいあいあいあいあいあいあ".data).length = 51 ∧
      rule2 "あいあいあいあいあいあいあいあいあいあいあいあいあいあいあいあいあいあいあいあいあいあいあいあいあいあ".data = false ∧
      rule3 [] = false ∧
      rule4 "あいあいあいあいあいあいあいあいあいあいあいあいあいあいあいあいあいあいあいあいあいあいあいあいあいあ".data = false ∧
      rule5 "あいあいあいあいあいあいあいあいあいあいあいあいあいあいあいあいあいあいあいあいあいあいあいあいあいあ".data = false ∧
      rule6 "あいあいあいあいあいあいあいあいあいあいあいあいあいあいあいあいあいあいあいあいあいあいあいあいあいあ".data = false ∧
      ((spam_reason [] [] [] = .tooShort ↔ (pyStrip []).length < 50) ∧
        is_spam_page (List.replicate 49 'a') [] [] = true ∧
        spam_reason (List.replicate 49 'a') [] [] = .tooShort ∧
        is_spam_page "あいあいあいあいあいあいあいあいあいあいあいあいあいあいあいあいあいあいあいあいあいあいあいあいあいあ".data [] [] = false ∧
        spam_reason "あいあいあいあいあいあいあいあいあいあいあいあいあいあいあいあいあいあいあいあいあいあいあいあいあいあ".data [] [] = .clean) :=
  ⟨by decide, by decide, by decide, by decide, by decide, by decide, by decide,
    C6_too_short_boundary [] [] [] _ [] [] _ [] []
      (by decide) (by decide) (by decide) (by decide) (by decide) (by decide)
      (by decide)⟩

/-! ### C7 — the low-native-script-ratio boundary -/

/-- C7: for non-empty text that passes heuristics 1-4, the classifier
diagnoses LowNativeScriptRatio exactly when the combined
hiragana+katakana+kanji ratio is strictly below 0.30, and any such
document is classified spam.  (A ratio of exactly 0.30 or above is
never flagged by this rule; the document may still be caught by the
keyword heuristic 6.) -/
theorem C7_low_native_script_boundary (content title url : List Char)
    (h0 : content.length ≠ 0)
    (h1 : rule1 content = false) (h2 : rule2 content = false)
    (h3 : rule3 url = false) (h4 : rule4 content = false) :
    (spam_reason content title url = .lowNative ↔
      japaneseRatioQ content < 3 / 10) ∧
      (japaneseRatioQ content < 3 / 10 →
        is_spam_page content title url = true) := by
  have hpos : 0 < content.length := Nat.pos_of_ne_zero h0
  have hiff := japaneseRatioQ_lt_iff content hpos
  have h5iff : rule5 content = true ↔ japaneseRatioQ content < 3 / 10 := by
    rw [rule5, if_pos hpos, decide_eq_true_iff]
    exact hiff.symm
  constructor
  · constructor
    · intro hrsn
      rw [spam_reason] at hrsn
      simp only [h1, h2, h3, h4, Bool.false_eq_true, if_false] at hrsn
      by_cases h5 : rule5 content
      · exact h5iff.mp h5
      · exfalso
        revert hrsn
        simp only [h5, Bool.false_eq_true, if_false]
        split_ifs <;> simp
    · intro hq
      simp [spam_reason, h1, h2, h3, h4, h5iff.mpr hq]
  · intro hq
    simp [is_spam_page, h1, h2, h3, h4, h5iff.mpr hq]

/-- Witness for C7: a 50-character document with 10 native-script and 40
ASCII characters (ratio 0.2), passing heuristics 1-4. -/
theorem C7_low_native_script_witness :
    ("あいうえおかきくけこabcdefghijklmnopqrstuvwxyzABCDEFGHIJKLMN".data.length ≠ 0) ∧
      rule1 "あいうえおかきくけこabcdefghijklmnopqrstuvwxyzABCDEFGHIJKLMN".data = false ∧
      rule2 "あいうえおかきくけこabcdefghijklmnopqrstuvwxyzABCDEFGHIJKLMN".data = false ∧
      rule3 [] = false ∧
      rule4 "あいうえおかきくけこabcdefghijklmnopqrstuvwxyzABCDEFGHIJKLMN".data = false ∧
      ((spam_reason "あいうえおかきくけこabcdefghijklmnopqrstuvwxyzABCDEFGHIJKLMN".data [] [] = .lowNative ↔
          japaneseRatioQ "あいうえおかきくけこabcdefghijklmnopqrstuvwxyzABCDEFGHIJKLMN".data < 3 / 10) ∧
        (japaneseRatioQ "あいうえおかきくけこabcdefghijklmnopqrstuvwxyzABCDEFGHIJKLMN".data < 3 / 10 →
          is_spam_page "あいうえおかきくけこabcdefghijklmnopqrstuvwxyzABCDEFGHIJKLMN".data [] [] = true)) :=
  ⟨by decide, by decide, by decide, by decide, by decide,
    C7_low_native_script_boundary _ [] []
      (by decide) (by decide) (by decide) (by decide) (by decide)⟩
